import Mathlib

/-!
# site_monitor: the worker's per-endpoint transition engine

A shallow embedding of `main.go` (package `main`): the `Site` record, the
status checker `check_http_status`, the logger `writeLog`, the notifier
`notify` and the `worker` loop, followed by the properties the specification
states about them.

Modelling conventions.

* Go's `int` status codes are `Int`; the code only compares them.
* The outside world a single check talks to is the record `World`: what
  `client.Head` hands back, what `time.Now().Format` prints and what
  `DialAndSend` answers.
* Output is an explicit trace of `Event`s, in program order.
* A Go `panic` is the field `panicked` of a result; nothing in `main.go`
  calls `recover`, so a panic ends the loop that raised it.
* One worker is run on its own: `worker` consumes a list of jobs in order.
-/

namespace SiteMonitor

/-! ## Data model -/

/-- Config file structure (`type Config struct`). -/
structure Config where
  From : String
  LogFilePath : String
  Wait : Int
  Timeout : Int
  Recipient : String
  Mailserver : String
  Username : String
  Password : String
  Port : Int
  Sites : List String
deriving DecidableEq, Repr

/-- Site to check (`type Site struct`). -/
structure Site where
  URL : String
  Status : Int
deriving DecidableEq, Repr

/-- The gomail message `notify` builds: its three headers and its HTML body. -/
structure Message where
  From : String
  To : String
  Subject : String
  Body : String
deriving DecidableEq, Repr

/-- What `client.Head(url)` returns: `StatusCode` is `some code` exactly when
`res != nil`, and `failed` is `err != nil`. -/
structure HeadResult where
  StatusCode : Option Int
  failed : Bool
deriving DecidableEq, Repr

/-- The external collaborators as one check sees them. -/
structure World where
  /-- Result of `client.Head(url)` under the configured timeout. -/
  head : String → HeadResult
  /-- Result of `time.Now().Format("Mon Jan 02 15:04:05 2006")`. -/
  now : String
  /-- Result of `d.DialAndSend(m)`: `none` for `nil`, `some e` for an error. -/
  dialAndSend : Message → Option String

/-- Observable effects, in program order. -/
inductive Event where
  /-- A line written by `fmt.Println`. -/
  | stdout (text : String)
  /-- A record handed to the standard logger by `log.Println`: the text of
  the message, before the logger puts its date and time in front of it. -/
  | logLine (text : String)
  /-- A message handed to `DialAndSend`. -/
  | mail (m : Message)
deriving DecidableEq, Repr

/-- Text produced by `Println` for operands already formatted with `%v`:
operands separated by one blank, newline appended. -/
def Sprintln (operands : List String) : String :=
  " ".intercalate operands ++ "\n"

/-! ## Status checker -/

/-- Go `check_http_status(url, retry)`: send a HEAD request, return the status
code. `status` starts at 408 and is overwritten only under `res != nil`. The
`err != nil` branch is empty (its body is commented out), so neither `err`
nor `retry` is consulted. -/
def check_http_status (w : World) (url : String) (retry : Bool) : Int :=
  let status : Int := 408
  let r := w.head url
  match r.StatusCode with
  | some code => code
  | none => status

/-! ## Logger -/

/-- Go `writeLog(url, status)`: a three-way switch on the label, one
`log.Println` per case and no default case. -/
def writeLog (url : String) (status : String) : List Event :=
  if status = "UP" then
    [Event.logLine (Sprintln ["INFO: ", url, "is", status])]
  else if status = "BACK UP" then
    [Event.logLine (Sprintln ["NOTICE: ", url, "is", status])]
  else if status = "DOWN" then
    [Event.logLine (Sprintln ["ALERT: ", url, "is", status])]
  else
    []

/-! ## Notifier -/

/-- Outcome of one call of `notify`. -/
structure NotifyResult where
  events : List Event
  panicked : Option String
deriving DecidableEq, Repr

/-- The message `notify` composes before dialling. -/
def composeMessage (config : Config) (now : String) (status : String) (site : Site) :
    Message :=
  let body := "<center><h3>" ++ site.URL ++ " is " ++ status ++ "</h3>"
  let body := body ++ ("<p><strong>(" ++ toString site.Status ++ ")</strong> @ " ++ now ++ "</p>")
  let body := body ++ "<br><br></center>"
  { From := config.From
    To := config.Recipient
    Subject := "Monitor - " ++ site.URL ++ " - " ++ status
    Body := body }

/-- Go `notify(status, site)`: compose the mail, dial and send, and panic with
the error when delivery fails. -/
def notify (config : Config) (w : World) (status : String) (site : Site) : NotifyResult :=
  let m := composeMessage config w.now status site
  match w.dialAndSend m with
  | some err => { events := [Event.mail m], panicked := some err }
  | none => { events := [Event.mail m], panicked := none }

/-! ## Worker -/

/-- The label computed inside the `status != j.Status` branch of `worker`:
`state := "UP"`, then the two independent `if`s, in source order. -/
def workerState (status : Int) (previous : Int) : String :=
  let state := "UP"
  let state := if status ≤ 399 ∧ previous > 399 then "BACK UP" else state
  let state := if status > 399 then "DOWN" else state
  state

/-- Outcome of one iteration of the `worker` loop on one site. -/
structure CheckResult where
  site : Site
  events : List Event
  panicked : Option String
deriving DecidableEq, Repr

/-- One iteration of `for j := range jobs` in `worker(id, jobs)`. -/
def workerCheck (config : Config) (w : World) (id : Int) (j : Site) : CheckResult :=
  let status := check_http_status w j.URL true
  if status ≠ j.Status then
    let state := workerState status j.Status
    let out := [Event.stdout
      (Sprintln ["[", toString id, "] - ", j.URL, "is ", state, " -", toString status])]
    let out := out ++ writeLog j.URL state
    let j := { j with Status := status }
    if state = "BACK UP" ∨ state = "DOWN" then
      let r := notify config w state j
      match r.panicked with
      | some err => { site := j, events := out ++ r.events, panicked := some err }
      | none => { site := { j with Status := status }, events := out ++ r.events,
                  panicked := none }
    else
      { site := { j with Status := status }, events := out, panicked := none }
  else
    { site := { j with Status := status }, events := [], panicked := none }

/-- A queued job: the index of the site the `*Site` pointer refers to in the
global `sites` slice, with the world as it is when the job is dequeued. -/
structure Job where
  site : Nat
  world : World

/-- Outcome of running one worker over a queue. `pending` holds the jobs
that were never dequeued because the worker panicked before reaching them. -/
structure WorkerResult where
  sites : List Site
  events : List Event
  panicked : Option String
  pending : List Job

/-- Go `worker(id, jobs)` run alone on a finite queue. A job whose index is
outside `sites` stands for no pointer and is skipped. -/
def worker (config : Config) (id : Int) (sites : List Site) : List Job → WorkerResult
  | [] => { sites := sites, events := [], panicked := none, pending := [] }
  | job :: rest =>
    match sites[job.site]? with
    | none => worker config id sites rest
    | some j =>
      let r := workerCheck config job.world id j
      let sites := sites.set job.site r.site
      match r.panicked with
      | some err => { sites := sites, events := r.events, panicked := some err, pending := rest }
      | none =>
        let k := worker config id sites rest
        { k with events := r.events ++ k.events }

/-- The log records of a trace. -/
def logLines : List Event → List String
  | [] => []
  | Event.logLine t :: es => t :: logLines es
  | _ :: es => logLines es

/-- The messages a trace handed to the mail relay: one per `notify` call. -/
def mails : List Event → List Message
  | [] => []
  | Event.mail m :: es => m :: mails es
  | _ :: es => mails es

/-! ## The transition rule as the specification words it -/

/-- The four classifications of the specification. -/
inductive Transition where
  | UNCHANGED
  | REACHABLE
  | RECOVERED
  | DOWN
deriving DecidableEq, Repr

/-- Specification, section 4.4: the four rules, evaluated in order. -/
def specClassify (previous current : Int) : Transition :=
  if current = previous then Transition.UNCHANGED
  else if current ≤ 399 ∧ previous > 399 then Transition.RECOVERED
  else if current > 399 then Transition.DOWN
  else Transition.REACHABLE

/-- Specification, section 4.4, as a relation: rule `t` is the first whose
condition holds. -/
def specApplies : Transition → Int → Int → Prop
  | Transition.UNCHANGED, previous, current => current = previous
  | Transition.RECOVERED, previous, current =>
      current ≠ previous ∧ current ≤ 399 ∧ previous > 399
  | Transition.DOWN, previous, current =>
      current ≠ previous ∧ ¬ (current ≤ 399 ∧ previous > 399) ∧ current > 399
  | Transition.REACHABLE, previous, current =>
      current ≠ previous ∧ ¬ (current ≤ 399 ∧ previous > 399) ∧ ¬ current > 399

/-- Specification, section 4.4: alerts fire only on `DOWN` and `RECOVERED`. -/
def Transition.alerts : Transition → Bool
  | Transition.RECOVERED => true
  | Transition.DOWN => true
  | _ => false

/-- Specification, sections 4.4 and 6: the label of a classification;
`UNCHANGED` has none. -/
def Transition.label : Transition → Option String
  | Transition.UNCHANGED => none
  | Transition.REACHABLE => some "UP"
  | Transition.RECOVERED => some "BACK UP"
  | Transition.DOWN => some "DOWN"

/-- Specification, section 4.6: the severity tag of a classification. -/
def Transition.severity : Transition → Option String
  | Transition.UNCHANGED => none
  | Transition.REACHABLE => some "INFO"
  | Transition.RECOVERED => some "NOTICE"
  | Transition.DOWN => some "ALERT"

/-- The label one check of the worker computes from `(previous, current)`:
none when the `status != j.Status` branch is skipped, the `state` variable
otherwise. -/
def workerLabel (previous current : Int) : Option String :=
  if current ≠ previous then some (workerState current previous) else none


instance specAppliesDecidable (t : Transition) (previous current : Int) :
    Decidable (specApplies t previous current) := by
  cases t <;> unfold specApplies <;> infer_instance

/-! ## Sample inputs -/

/-- A sample configuration. -/
def sampleConfig : Config :=
  { From := "monitor@example.org", LogFilePath := "monitor.log", Wait := 60, Timeout := 5,
    Recipient := "ops@example.org", Mailserver := "smtp.example.org", Username := "monitor",
    Password := "secret", Port := 587, Sites := ["http://x"] }

/-- A world whose probe obtains a response with status `code` (or none), and
whose mail relay answers `relay`. -/
def sampleWorld (code : Option Int) (relay : Option String) : World :=
  { head := fun _ => { StatusCode := code, failed := code.isNone }
    now := "Wed Nov 04 09:45:00 2026"
    dialAndSend := fun _ => relay }

/-! ## Lemmas on the pieces of one check -/

theorem workerState_down (status previous : Int) (h : status > 399) :
    workerState status previous = "DOWN" := by
  simp [workerState, h]

theorem workerState_back_up (status previous : Int) (h : status ≤ 399) (hp : previous > 399) :
    workerState status previous = "BACK UP" := by
  have h1 : ¬ status > 399 := by omega
  simp [workerState, h, hp, h1]

theorem workerState_up (status previous : Int) (h : status ≤ 399) (hp : previous ≤ 399) :
    workerState status previous = "UP" := by
  have h1 : ¬ status > 399 := by omega
  have h2 : ¬ previous > 399 := by omega
  simp [workerState, h1, h2]

theorem workerLabel_eq_spec (previous current : Int) :
    workerLabel previous current = (specClassify previous current).label := by
  unfold workerLabel specClassify
  by_cases h : current = previous
  · simp [h, Transition.label]
  · by_cases h1 : current > 399
    · have h2 : ¬ current ≤ 399 := by omega
      simp [h, h1, h2, workerState_down, Transition.label]
    · have h2 : current ≤ 399 := by omega
      by_cases h3 : previous > 399
      · simp [h, h1, h2, h3, workerState_back_up, Transition.label]
      · have h4 : previous ≤ 399 := by omega
        simp [h, h1, h3, workerState_up _ _ h2 h4, Transition.label]

theorem specApplies_specClassify (previous current : Int) :
    specApplies (specClassify previous current) previous current := by
  unfold specClassify
  by_cases h : current = previous
  · simp [h, specApplies]
  · by_cases h1 : current ≤ 399 ∧ previous > 399
    · simp [h, h1, specApplies]
    · by_cases h2 : current > 399
      · rw [if_neg h, if_neg h1, if_pos h2]
        exact ⟨h, h1, h2⟩
      · rw [if_neg h, if_neg h1, if_neg h2]
        exact ⟨h, h1, h2⟩

theorem specApplies_unique (t : Transition) (previous current : Int)
    (h : specApplies t previous current) : t = specClassify previous current := by
  unfold specClassify
  cases t <;> simp only [specApplies] at h
  · simp [h]
  · obtain ⟨h0, h1, h2⟩ := h
    simp [h0, h1, h2]
  · obtain ⟨h0, h1, h2⟩ := h
    simp [h0, h1, h2]
  · obtain ⟨h0, h1, h2⟩ := h
    simp [h0, h1, h2]

/-- The trace of one check, written out by the four outcomes of the
`status != j.Status` test and the label. -/
theorem workerCheck_unchanged (config : Config) (w : World) (id : Int) (j : Site)
    (h : check_http_status w j.URL true = j.Status) :
    workerCheck config w id j =
      { site := { j with Status := check_http_status w j.URL true }, events := [],
        panicked := none } := by
  simp [workerCheck, h]

theorem workerCheck_events (config : Config) (w : World) (id : Int) (j : Site)
    (h : check_http_status w j.URL true ≠ j.Status) :
    (workerCheck config w id j).events =
      Event.stdout (Sprintln ["[", toString id, "] - ", j.URL, "is ",
          workerState (check_http_status w j.URL true) j.Status, " -",
          toString (check_http_status w j.URL true)])
        :: (writeLog j.URL (workerState (check_http_status w j.URL true) j.Status)
          ++ (if workerState (check_http_status w j.URL true) j.Status = "BACK UP"
                ∨ workerState (check_http_status w j.URL true) j.Status = "DOWN"
              then [Event.mail (composeMessage config w.now
                (workerState (check_http_status w j.URL true) j.Status)
                { j with Status := check_http_status w j.URL true })]
              else [])) := by
  unfold workerCheck
  simp only [h, ne_eq, not_false_eq_true, if_true]
  split
  · simp only [notify]
    cases w.dialAndSend _ <;> simp
  · simp


/-! ## Lemmas on traces -/

theorem logLines_append (a b : List Event) : logLines (a ++ b) = logLines a ++ logLines b := by
  induction a with
  | nil => rfl
  | cons e es ih => cases e <;> simp [logLines, ih]

theorem mails_append (a b : List Event) : mails (a ++ b) = mails a ++ mails b := by
  induction a with
  | nil => rfl
  | cons e es ih => cases e <;> simp [mails, ih]

theorem mails_writeLog (url status : String) : mails (writeLog url status) = [] := by
  unfold writeLog
  split
  · rfl
  · split
    · rfl
    · split <;> rfl

theorem writeLog_up (url : String) :
    writeLog url "UP" = [Event.logLine ("INFO:  " ++ url ++ " is UP\n")] := by
  simp [writeLog, Sprintln, String.intercalate, String.intercalate.go, String.append_assoc]

theorem writeLog_back_up (url : String) :
    writeLog url "BACK UP" = [Event.logLine ("NOTICE:  " ++ url ++ " is BACK UP\n")] := by
  simp [writeLog, Sprintln, String.intercalate, String.intercalate.go, String.append_assoc]

theorem writeLog_down (url : String) :
    writeLog url "DOWN" = [Event.logLine ("ALERT:  " ++ url ++ " is DOWN\n")] := by
  simp [writeLog, Sprintln, String.intercalate, String.intercalate.go, String.append_assoc]

theorem workerCheck_logLines (config : Config) (w : World) (id : Int) (j : Site)
    (h : check_http_status w j.URL true ≠ j.Status) :
    logLines (workerCheck config w id j).events =
      logLines (writeLog j.URL (workerState (check_http_status w j.URL true) j.Status)) := by
  rw [workerCheck_events config w id j h]
  simp only [logLines, logLines_append]
  split <;> simp [logLines]

theorem workerCheck_mails (config : Config) (w : World) (id : Int) (j : Site)
    (h : check_http_status w j.URL true ≠ j.Status) :
    mails (workerCheck config w id j).events =
      if workerState (check_http_status w j.URL true) j.Status = "BACK UP"
          ∨ workerState (check_http_status w j.URL true) j.Status = "DOWN"
      then [composeMessage config w.now
              (workerState (check_http_status w j.URL true) j.Status)
              { j with Status := check_http_status w j.URL true }]
      else [] := by
  rw [workerCheck_events config w id j h]
  simp only [mails, mails_append, mails_writeLog]
  split <;> simp [mails]

/-- The three shapes of a check whose code differs from the stored one. -/
theorem workerCheck_down (config : Config) (w : World) (id : Int) (url : String)
    (previous current : Int) (hc : check_http_status w url true = current)
    (hne : current ≠ previous) (h : current > 399) :
    logLines (workerCheck config w id ⟨url, previous⟩).events
        = ["ALERT:  " ++ url ++ " is DOWN\n"]
    ∧ mails (workerCheck config w id ⟨url, previous⟩).events
        = [composeMessage config w.now "DOWN" ⟨url, current⟩] := by
  have h0 : check_http_status w (Site.mk url previous).URL true ≠ (Site.mk url previous).Status := by
    simpa [hc] using hne
  rw [workerCheck_logLines _ _ _ _ h0, workerCheck_mails _ _ _ _ h0]
  simp only [hc, workerState_down current previous h, writeLog_down]
  simp [logLines]

theorem workerCheck_back_up (config : Config) (w : World) (id : Int) (url : String)
    (previous current : Int) (hc : check_http_status w url true = current)
    (h : current ≤ 399) (hp : previous > 399) :
    logLines (workerCheck config w id ⟨url, previous⟩).events
        = ["NOTICE:  " ++ url ++ " is BACK UP\n"]
    ∧ mails (workerCheck config w id ⟨url, previous⟩).events
        = [composeMessage config w.now "BACK UP" ⟨url, current⟩] := by
  have hne : current ≠ previous := by omega
  have h0 : check_http_status w (Site.mk url previous).URL true ≠ (Site.mk url previous).Status := by
    simpa [hc] using hne
  rw [workerCheck_logLines _ _ _ _ h0, workerCheck_mails _ _ _ _ h0]
  simp only [hc, workerState_back_up current previous h hp, writeLog_back_up]
  simp [logLines]

theorem workerCheck_up (config : Config) (w : World) (id : Int) (url : String)
    (previous current : Int) (hc : check_http_status w url true = current)
    (hne : current ≠ previous) (h : current ≤ 399) (hp : previous ≤ 399) :
    logLines (workerCheck config w id ⟨url, previous⟩).events
        = ["INFO:  " ++ url ++ " is UP\n"]
    ∧ mails (workerCheck config w id ⟨url, previous⟩).events = [] := by
  have h0 : check_http_status w (Site.mk url previous).URL true ≠ (Site.mk url previous).Status := by
    simpa [hc] using hne
  rw [workerCheck_logLines _ _ _ _ h0, workerCheck_mails _ _ _ _ h0]
  simp only [hc, workerState_up current previous h hp, writeLog_up]
  simp [logLines]

theorem workerCheck_same (config : Config) (w : World) (id : Int) (url : String)
    (previous current : Int) (hc : check_http_status w url true = current)
    (he : current = previous) :
    (workerCheck config w id ⟨url, previous⟩).events = [] := by
  rw [workerCheck_unchanged config w id ⟨url, previous⟩ (by simp [hc, he])]

theorem specClassify_same (previous current : Int) (h : current = previous) :
    specClassify previous current = Transition.UNCHANGED := by
  simp [specClassify, h]

theorem specClassify_down (previous current : Int) (hne : current ≠ previous)
    (h : current > 399) : specClassify previous current = Transition.DOWN := by
  have h1 : ¬ current ≤ 399 := by omega
  simp [specClassify, hne, h, h1]

theorem specClassify_back_up (previous current : Int) (h : current ≤ 399)
    (hp : previous > 399) : specClassify previous current = Transition.RECOVERED := by
  have hne : current ≠ previous := by omega
  simp [specClassify, hne, h, hp]

theorem specClassify_up (previous current : Int) (hne : current ≠ previous)
    (h : current ≤ 399) (hp : previous ≤ 399) :
    specClassify previous current = Transition.REACHABLE := by
  have h1 : ¬ current > 399 := by omega
  have h2 : ¬ previous > 399 := by omega
  simp [specClassify, hne, h1, h2]


theorem workerCheck_site (config : Config) (w : World) (id : Int) (j : Site) :
    (workerCheck config w id j).site = ⟨j.URL, check_http_status w j.URL true⟩ := by
  unfold workerCheck
  simp only []
  split
  · split
    · split <;> rfl
    · rfl
  · rfl

/-! ## Lemmas on the loop -/

theorem workerCheck_panicked_same (config : Config) (w : World) (id : Int) (j : Site)
    (h : check_http_status w j.URL true = j.Status) :
    (workerCheck config w id j).panicked = none := by
  rw [workerCheck_unchanged config w id j h]

theorem workerCheck_panicked_alert (config : Config) (w : World) (id : Int) (j : Site)
    (h : check_http_status w j.URL true ≠ j.Status)
    (ha : workerState (check_http_status w j.URL true) j.Status = "BACK UP"
      ∨ workerState (check_http_status w j.URL true) j.Status = "DOWN") :
    (workerCheck config w id j).panicked =
      w.dialAndSend (composeMessage config w.now
        (workerState (check_http_status w j.URL true) j.Status)
        { j with Status := check_http_status w j.URL true }) := by
  unfold workerCheck
  simp only [h, ne_eq, not_false_eq_true, if_true, ha, notify]
  cases w.dialAndSend _ <;> rfl

theorem worker_cons_panicked (config : Config) (id : Int) (sites : List Site) (job : Job)
    (rest : List Job) (j : Site) (err : String) (hget : sites[job.site]? = some j)
    (hp : (workerCheck config job.world id j).panicked = some err) :
    (worker config id sites (job :: rest)).sites
        = sites.set job.site (workerCheck config job.world id j).site
    ∧ (worker config id sites (job :: rest)).events = (workerCheck config job.world id j).events
    ∧ (worker config id sites (job :: rest)).panicked = some err
    ∧ (worker config id sites (job :: rest)).pending = rest := by
  simp [worker, hget, hp]

theorem worker_cons_events (config : Config) (id : Int) (sites : List Site) (job : Job)
    (rest : List Job) (j : Site) (hget : sites[job.site]? = some j)
    (hp : (workerCheck config job.world id j).panicked = none) :
    (worker config id sites (job :: rest)).events
      = (workerCheck config job.world id j).events
        ++ (worker config id (sites.set job.site (workerCheck config job.world id j).site)
              rest).events := by
  simp [worker, hget, hp]

/-- Once the stored code equals the code every queued probe returns, the rest
of the queue produces no event. -/
theorem worker_events_settled (config : Config) (id : Int) (i : Nat) (url : String) (c : Int)
    (rest : List Job) :
    ∀ sites : List Site, sites[i]? = some ⟨url, c⟩ →
      (∀ job ∈ rest, job.site = i ∧ check_http_status job.world url true = c) →
      (worker config id sites rest).events = [] := by
  induction rest with
  | nil =>
    intro sites _ _
    rfl
  | cons job rest ih =>
    intro sites hget hall
    obtain ⟨hs, hc⟩ := hall job (List.mem_cons_self _ _)
    have hget1 : sites[job.site]? = some ⟨url, c⟩ := by rw [hs]; exact hget
    have hsame : check_http_status job.world (Site.mk url c).URL true = (Site.mk url c).Status := hc
    have hpan := workerCheck_panicked_same config job.world id ⟨url, c⟩ hsame
    rw [worker_cons_events config id sites job rest ⟨url, c⟩ hget1 hpan]
    rw [workerCheck_unchanged config job.world id ⟨url, c⟩ hsame]
    have hlt : i < sites.length := by
      obtain ⟨h, _⟩ := List.getElem?_eq_some.mp hget
      exact h
    have hget2 : (sites.set job.site ⟨url, check_http_status job.world url true⟩)[i]?
        = some ⟨url, c⟩ := by
      rw [hs, hc]
      exact List.getElem?_set_self hlt
    simpa using ih _ hget2 (fun job1 h1 => hall job1 (List.mem_cons_of_mem _ h1))

theorem workerCheck_mails_length (config : Config) (w : World) (id : Int) (j : Site) :
    (mails (workerCheck config w id j).events).length ≤ 1 := by
  by_cases h : check_http_status w j.URL true = j.Status
  · rw [workerCheck_unchanged config w id j h]
    simp [mails]
  · rw [workerCheck_mails config w id j h]
    split <;> simp


/-! ## The specification's claims -/

/-- C1: for every pair of codes (previous, current) the label one check of the
worker computes is the label of the specification's ordered four-rule
classification (no label for UNCHANGED, "BACK UP" for RECOVERED, "DOWN" for
DOWN, "UP" for REACHABLE), the label is the one the worker prints when the
probe returns `current`, and exactly one of the four rules applies to the pair. -/
theorem worker_label_is_four_rule_classification (previous current : Int) :
    workerLabel previous current = (specClassify previous current).label
    ∧ (∃! t, specApplies t previous current)
    ∧ ∀ (config : Config) (w : World) (id : Int) (url : String),
        check_http_status w url true = current →
        (workerCheck config w id ⟨url, previous⟩).events.head?
          = (workerLabel previous current).map fun state =>
              Event.stdout (Sprintln ["[", toString id, "] - ", url, "is ", state, " -",
                toString current]) := by
  refine ⟨workerLabel_eq_spec previous current,
    ⟨specClassify previous current, specApplies_specClassify previous current,
      fun t ht => specApplies_unique t previous current ht⟩, ?_⟩
  intro config w id url hc
  by_cases he : current = previous
  · rw [workerCheck_same config w id url previous current hc he]
    simp [workerLabel, he]
  · have h0 : check_http_status w (Site.mk url previous).URL true
        ≠ (Site.mk url previous).Status := by simpa [hc] using he
    rw [workerCheck_events config w id _ h0]
    simp [workerLabel, he, hc]

/-- C2: one check emits a log record exactly when the classification is not
UNCHANGED (the codes differ), hands a message to the Notifier exactly when the
classification is DOWN or RECOVERED, and uses the classification's own label
for both; with equal codes nothing is logged or sent, and from previous > 399
to current <= 399 both are invoked with "BACK UP". -/
theorem worker_logs_and_notifies_by_classification (config : Config) (w : World) (id : Int)
    (url : String) (previous current : Int)
    (hc : check_http_status w url true = current) :
    (logLines (workerCheck config w id ⟨url, previous⟩).events ≠ []
        ↔ specClassify previous current ≠ Transition.UNCHANGED)
    ∧ (logLines (workerCheck config w id ⟨url, previous⟩).events ≠ [] ↔ current ≠ previous)
    ∧ (mails (workerCheck config w id ⟨url, previous⟩).events ≠ []
        ↔ (specClassify previous current = Transition.DOWN
            ∨ specClassify previous current = Transition.RECOVERED))
    ∧ (∀ label, (specClassify previous current).label = some label →
        logLines (workerCheck config w id ⟨url, previous⟩).events = logLines (writeLog url label)
        ∧ mails (workerCheck config w id ⟨url, previous⟩).events
            = if (specClassify previous current).alerts
              then [composeMessage config w.now label ⟨url, current⟩] else [])
    ∧ (previous = current →
        logLines (workerCheck config w id ⟨url, previous⟩).events = []
        ∧ mails (workerCheck config w id ⟨url, previous⟩).events = [])
    ∧ (previous > 399 → current ≤ 399 →
        logLines (workerCheck config w id ⟨url, previous⟩).events
            = ["NOTICE:  " ++ url ++ " is BACK UP\n"]
        ∧ mails (workerCheck config w id ⟨url, previous⟩).events
            = [composeMessage config w.now "BACK UP" ⟨url, current⟩]) := by
  by_cases he : current = previous
  · have hev := workerCheck_same config w id url previous current hc he
    have hcl := specClassify_same previous current he
    rw [hev, hcl]
    refine ⟨by simp [logLines], by simp [logLines, he], by simp [mails], ?_, ?_, ?_⟩
    · intro label hl
      simp [Transition.label] at hl
    · intro _
      simp [logLines, mails]
    · intro h1 h2
      omega
  · by_cases hd : current > 399
    · obtain ⟨hl, hm⟩ := workerCheck_down config w id url previous current hc he hd
      have hcl := specClassify_down previous current he hd
      rw [hl, hm, hcl]
      refine ⟨by simp, by simp [he], by simp, ?_, ?_, ?_⟩
      · intro label hlab
        simp only [Transition.label, Option.some.injEq] at hlab
        subst hlab
        rw [writeLog_down]
        simp [logLines, Transition.alerts]
      · intro h1
        exact absurd h1.symm he
      · intro h1 h2
        omega
    · have hle : current ≤ 399 := by omega
      by_cases hp : previous > 399
      · obtain ⟨hl, hm⟩ := workerCheck_back_up config w id url previous current hc hle hp
        have hcl := specClassify_back_up previous current hle hp
        rw [hl, hm, hcl]
        refine ⟨by simp, by simp [he], by simp, ?_, ?_, ?_⟩
        · intro label hlab
          simp only [Transition.label, Option.some.injEq] at hlab
          subst hlab
          rw [writeLog_back_up]
          simp [logLines, Transition.alerts]
        · intro h1
          exact absurd h1.symm he
        · intro _ _
          exact ⟨rfl, rfl⟩
      · have hple : previous ≤ 399 := by omega
        obtain ⟨hl, hm⟩ := workerCheck_up config w id url previous current hc he hle hple
        have hcl := specClassify_up previous current he hle hple
        rw [hl, hm, hcl]
        refine ⟨by simp, by simp [he], by simp, ?_, ?_, ?_⟩
        · intro label hlab
          simp only [Transition.label, Option.some.injEq] at hlab
          subst hlab
          rw [writeLog_up]
          simp [logLines, Transition.alerts]
        · intro h1
          exact absurd h1.symm he
        · intro h1 _
          exact absurd h1 hp

/-- C2, at a concrete input: stored code 500, probe answers 200. -/
theorem worker_logs_and_notifies_by_classification_witness :
    check_http_status (sampleWorld (some 200) none) "http://x" true = 200
    ∧ logLines (workerCheck sampleConfig (sampleWorld (some 200) none) 1
        ⟨"http://x", 500⟩).events = ["NOTICE:  http://x is BACK UP\n"]
    ∧ mails (workerCheck sampleConfig (sampleWorld (some 200) none) 1
        ⟨"http://x", 500⟩).events
        = [composeMessage sampleConfig "Wed Nov 04 09:45:00 2026" "BACK UP"
            ⟨"http://x", 200⟩] :=
  ⟨by decide,
    (worker_logs_and_notifies_by_classification sampleConfig (sampleWorld (some 200) none) 1
      "http://x" 500 200 (by decide)).2.2.2.2.2 (by decide) (by decide)⟩


/-- C3, as stated, fails when the stored code already equals the observed one:
with previous = current = 500 the check is UNCHANGED and produces no log
record and no mail. -/
theorem worker_down_for_any_previous_counterexample :
    (500 : Int) > 399
    ∧ check_http_status (sampleWorld (some 500) none) "http://x" true = 500
    ∧ specClassify 500 500 = Transition.UNCHANGED
    ∧ workerLabel 500 500 = none
    ∧ (workerCheck sampleConfig (sampleWorld (some 500) none) 1 ⟨"http://x", 500⟩).events
        = [] := by
  decide

/-- C3, amended: for every current > 399 and every previous different from
current (the never-observed sentinel 0 included), one check classifies the
transition as DOWN, writes the ALERT record with label "DOWN" and hands the
Notifier a message composed with label "DOWN". -/
theorem worker_down_when_code_differs (config : Config) (w : World) (id : Int)
    (url : String) (previous current : Int)
    (hc : check_http_status w url true = current)
    (hdown : current > 399) (hne : previous ≠ current) :
    specClassify previous current = Transition.DOWN
    ∧ workerLabel previous current = some "DOWN"
    ∧ logLines (workerCheck config w id ⟨url, previous⟩).events
        = logLines (writeLog url "DOWN")
    ∧ logLines (workerCheck config w id ⟨url, previous⟩).events
        = ["ALERT:  " ++ url ++ " is DOWN\n"]
    ∧ mails (workerCheck config w id ⟨url, previous⟩).events
        = [composeMessage config w.now "DOWN" ⟨url, current⟩] := by
  have he : current ≠ previous := fun h => hne h.symm
  obtain ⟨hl, hm⟩ := workerCheck_down config w id url previous current hc he hdown
  refine ⟨specClassify_down previous current he hdown, ?_, ?_, hl, hm⟩
  · simp [workerLabel, he, workerState_down current previous hdown]
  · rw [hl, writeLog_down]
    rfl

/-- C3, amended, at a concrete input: first contact (stored code 0), the probe
fails and yields 408. -/
theorem worker_down_when_code_differs_witness :
    check_http_status (sampleWorld none none) "http://x" true = 408
    ∧ (408 : Int) > 399 ∧ (0 : Int) ≠ 408
    ∧ specClassify 0 408 = Transition.DOWN
    ∧ logLines (workerCheck sampleConfig (sampleWorld none none) 1 ⟨"http://x", 0⟩).events
        = ["ALERT:  http://x is DOWN\n"] :=
  have h := worker_down_when_code_differs sampleConfig (sampleWorld none none) 1
    "http://x" 0 408 (by decide) (by decide) (by decide)
  ⟨by decide, by decide, by decide, h.1, h.2.2.2.1⟩

/-- C4, as stated, fails: 200 and 204 lie on the same side of the threshold,
yet the check is not UNCHANGED: the worker computes the label "UP" and writes
an INFO record. -/
theorem worker_same_side_unchanged_counterexample :
    ((200 : Int) ≤ 399 ∧ (204 : Int) ≤ 399)
    ∧ check_http_status (sampleWorld (some 204) none) "http://x" true = 204
    ∧ workerLabel 200 204 = some "UP"
    ∧ specClassify 200 204 = Transition.REACHABLE
    ∧ logLines (workerCheck sampleConfig (sampleWorld (some 204) none) 1
        ⟨"http://x", 200⟩).events = ["INFO:  http://x is UP\n"] := by
  decide

/-- C4, amended: for codes on the same side of the 399 threshold the check is
UNCHANGED exactly when the two codes are equal; when they differ and both are
<= 399 it is REACHABLE (an INFO record with label "UP", no mail), and when they
differ and both are > 399 it is DOWN (an ALERT record and a mail, label
"DOWN"). -/
theorem worker_same_side_unchanged_iff_equal (config : Config) (w : World) (id : Int)
    (url : String) (previous current : Int)
    (hc : check_http_status w url true = current)
    (hside : (previous ≤ 399 ∧ current ≤ 399) ∨ (previous > 399 ∧ current > 399)) :
    (specClassify previous current = Transition.UNCHANGED ↔ current = previous)
    ∧ (workerLabel previous current = none ↔ current = previous)
    ∧ ((workerCheck config w id ⟨url, previous⟩).events = [] ↔ current = previous)
    ∧ (current ≠ previous → current ≤ 399 →
        specClassify previous current = Transition.REACHABLE
        ∧ logLines (workerCheck config w id ⟨url, previous⟩).events
            = ["INFO:  " ++ url ++ " is UP\n"]
        ∧ mails (workerCheck config w id ⟨url, previous⟩).events = [])
    ∧ (current ≠ previous → current > 399 →
        specClassify previous current = Transition.DOWN
        ∧ logLines (workerCheck config w id ⟨url, previous⟩).events
            = ["ALERT:  " ++ url ++ " is DOWN\n"]
        ∧ mails (workerCheck config w id ⟨url, previous⟩).events
            = [composeMessage config w.now "DOWN" ⟨url, current⟩]) := by
  by_cases he : current = previous
  · refine ⟨?_, ?_, ?_, ?_, ?_⟩
    · exact ⟨fun _ => he, fun _ => specClassify_same previous current he⟩
    · simp [workerLabel, he]
    · simp [workerCheck_same config w id url previous current hc he, he]
    · intro h
      exact absurd he h
    · intro h
      exact absurd he h
  · have h0 : check_http_status w (Site.mk url previous).URL true
        ≠ (Site.mk url previous).Status := by simpa [hc] using he
    have hev : (workerCheck config w id ⟨url, previous⟩).events ≠ [] := by
      rw [workerCheck_events config w id _ h0]
      simp
    refine ⟨?_, ?_, ?_, ?_, ?_⟩
    · constructor
      · intro h
        have h1 := specApplies_specClassify previous current
        rw [h] at h1
        exact h1
      · intro h
        exact absurd h he
    · simp [workerLabel, he]
    · simp [hev, he]
    · intro _ hle
      have hp : previous ≤ 399 := by omega
      exact ⟨specClassify_up previous current he hle hp,
        workerCheck_up config w id url previous current hc he hle hp⟩
    · intro _ hgt
      exact ⟨specClassify_down previous current he hgt,
        workerCheck_down config w id url previous current hc he hgt⟩

/-- C4, amended, at a concrete input: stored code 500, probe answers 503. -/
theorem worker_same_side_unchanged_iff_equal_witness :
    check_http_status (sampleWorld (some 503) none) "http://x" true = 503
    ∧ ((500 : Int) > 399 ∧ (503 : Int) > 399)
    ∧ specClassify 500 503 = Transition.DOWN
    ∧ logLines (workerCheck sampleConfig (sampleWorld (some 503) none) 1
        ⟨"http://x", 500⟩).events = ["ALERT:  http://x is DOWN\n"] :=
  have h := (worker_same_side_unchanged_iff_equal sampleConfig
    (sampleWorld (some 503) none) 1 "http://x" 500 503 (by decide)
    (Or.inr (by decide))).2.2.2.2 (by decide) (by decide)
  ⟨by decide, by decide, h.1, h.2.1⟩

/-- C5, as stated, fails at current = 0: a never-observed endpoint whose probe
yields code 0 is UNCHANGED, so no "UP" record is written. -/
theorem worker_first_contact_reachable_counterexample :
    (0 : Int) ≤ 399
    ∧ check_http_status (sampleWorld (some 0) none) "http://x" true = 0
    ∧ specClassify 0 0 = Transition.UNCHANGED
    ∧ workerLabel 0 0 = none
    ∧ logLines (workerCheck sampleConfig (sampleWorld (some 0) none) 1
        ⟨"http://x", 0⟩).events = [] := by
  decide

/-- C5, amended: for a never-observed endpoint (previous = 0) and every
current <= 399 other than 0, one check classifies the transition as REACHABLE:
the Logger writes the INFO record with label "UP" and the Notifier is not
invoked. -/
theorem worker_first_contact_reachable (config : Config) (w : World) (id : Int)
    (url : String) (current : Int)
    (hc : check_http_status w url true = current)
    (hle : current ≤ 399) (hne : current ≠ 0) :
    specClassify 0 current = Transition.REACHABLE
    ∧ workerLabel 0 current = some "UP"
    ∧ logLines (workerCheck config w id ⟨url, 0⟩).events = logLines (writeLog url "UP")
    ∧ logLines (workerCheck config w id ⟨url, 0⟩).events = ["INFO:  " ++ url ++ " is UP\n"]
    ∧ mails (workerCheck config w id ⟨url, 0⟩).events = [] := by
  have hp : (0 : Int) ≤ 399 := by decide
  obtain ⟨hl, hm⟩ := workerCheck_up config w id url 0 current hc hne hle hp
  refine ⟨specClassify_up 0 current hne hle hp, ?_, ?_, hl, hm⟩
  · simp [workerLabel, hne, workerState_up current 0 hle hp]
  · rw [hl, writeLog_up]
    rfl

/-- C5, amended, at a concrete input: stored code 0, probe answers 200. -/
theorem worker_first_contact_reachable_witness :
    check_http_status (sampleWorld (some 200) none) "http://x" true = 200
    ∧ (200 : Int) ≤ 399 ∧ (200 : Int) ≠ 0
    ∧ logLines (workerCheck sampleConfig (sampleWorld (some 200) none) 1
        ⟨"http://x", 0⟩).events = ["INFO:  http://x is UP\n"]
    ∧ mails (workerCheck sampleConfig (sampleWorld (some 200) none) 1
        ⟨"http://x", 0⟩).events = [] :=
  have h := worker_first_contact_reachable sampleConfig (sampleWorld (some 200) none) 1
    "http://x" 200 (by decide) (by decide) (by decide)
  ⟨by decide, by decide, by decide, h.2.2.2.1, h.2.2.2.2⟩


/-- C6: after one check of the endpoint (url, previous) the stored status is
the code the probe returned and the URL is the same, whether or not the check
was UNCHANGED and whether or not the Notifier panicked; the worker writes that
record back to the endpoint's slot. -/
theorem worker_check_overwrites_status (config : Config) (w : World) (id : Int)
    (url : String) (previous : Int) :
    (workerCheck config w id ⟨url, previous⟩).site.Status = check_http_status w url true
    ∧ (workerCheck config w id ⟨url, previous⟩).site.URL = url
    ∧ ∀ (sites : List Site) (i : Nat), sites[i]? = some ⟨url, previous⟩ →
        (worker config id sites [⟨i, w⟩]).sites
          = sites.set i ⟨url, check_http_status w url true⟩ := by
  have hs := workerCheck_site config w id ⟨url, previous⟩
  refine ⟨by rw [hs], by rw [hs], ?_⟩
  intro sites i hget
  cases hp : (workerCheck config w id ⟨url, previous⟩).panicked with
  | none => simp [worker, hget, hp, hs]
  | some err => simp [worker, hget, hp, hs]

/-- C7: when a worker processes n >= 1 consecutive jobs of one endpoint whose
probes all return the same code c, the trace of the whole run is the trace of
the first check alone (every later check is UNCHANGED and adds no log record
and no mail), so at most one mail is handed to the Notifier. -/
theorem worker_repeated_observation_alerts_once (config : Config) (id : Int)
    (sites : List Site) (i : Nat) (url : String) (p c : Int) (first : Job) (rest : List Job)
    (hget : sites[i]? = some ⟨url, p⟩)
    (hall : ∀ job ∈ first :: rest, job.site = i ∧ check_http_status job.world url true = c) :
    (worker config id sites (first :: rest)).events
        = (workerCheck config first.world id ⟨url, p⟩).events
    ∧ (mails (worker config id sites (first :: rest)).events).length ≤ 1
    ∧ specClassify c c = Transition.UNCHANGED
    ∧ ∀ job ∈ rest, (workerCheck config job.world id ⟨url, c⟩).events = [] := by
  obtain ⟨hs, hc⟩ := hall first (List.mem_cons_self _ _)
  have hget1 : sites[first.site]? = some ⟨url, p⟩ := by rw [hs]; exact hget
  have hrest : ∀ job ∈ rest, job.site = i ∧ check_http_status job.world url true = c :=
    fun job h => hall job (List.mem_cons_of_mem _ h)
  have hev : (worker config id sites (first :: rest)).events
      = (workerCheck config first.world id ⟨url, p⟩).events := by
    cases hp : (workerCheck config first.world id ⟨url, p⟩).panicked with
    | some err =>
      exact (worker_cons_panicked config id sites first rest ⟨url, p⟩ err hget1 hp).2.1
    | none =>
      rw [worker_cons_events config id sites first rest ⟨url, p⟩ hget1 hp]
      have hlt : i < sites.length := by
        obtain ⟨h, _⟩ := List.getElem?_eq_some.mp hget
        exact h
      have hget2 : (sites.set first.site (workerCheck config first.world id ⟨url, p⟩).site)[i]?
          = some ⟨url, c⟩ := by
        rw [workerCheck_site, hs]
        simp only [hc]
        exact List.getElem?_set_self hlt
      rw [worker_events_settled config id i url c rest _ hget2 hrest]
      simp
  refine ⟨hev, ?_, specClassify_same c c rfl, ?_⟩
  · rw [hev]
    exact workerCheck_mails_length config first.world id ⟨url, p⟩
  · intro job hj
    exact workerCheck_same config job.world id url c c (hrest job hj).2 rfl

/-- C7, at a concrete input: stored code 200 and three consecutive probes that
all return 500. -/
theorem worker_repeated_observation_alerts_once_witness :
    mails (worker sampleConfig 1 [⟨"http://x", 200⟩]
        [⟨0, sampleWorld (some 500) none⟩, ⟨0, sampleWorld (some 500) none⟩,
          ⟨0, sampleWorld (some 500) none⟩]).events
      = [composeMessage sampleConfig "Wed Nov 04 09:45:00 2026" "DOWN" ⟨"http://x", 500⟩]
    ∧ (mails (worker sampleConfig 1 [⟨"http://x", 200⟩]
        [⟨0, sampleWorld (some 500) none⟩, ⟨0, sampleWorld (some 500) none⟩,
          ⟨0, sampleWorld (some 500) none⟩]).events).length ≤ 1 :=
  ⟨by decide,
    (worker_repeated_observation_alerts_once sampleConfig 1 [⟨"http://x", 200⟩] 0 "http://x"
      200 500 ⟨0, sampleWorld (some 500) none⟩
      [⟨0, sampleWorld (some 500) none⟩, ⟨0, sampleWorld (some 500) none⟩] (by decide)
      (by
        intro job hj
        simp only [List.mem_cons, List.mem_singleton, List.not_mem_nil, or_false] at hj
        rcases hj with h | h | h <;> subst h <;> exact ⟨rfl, by decide⟩)).2.1⟩

/-- C8, as stated, fails: the stored code is 200, the first job's probe
returns 500 and the mail relay refuses the message. The worker panics with the
relay's error, the second job of the queue is never dequeued, and the "BACK UP"
record that job would have produced is absent from the trace. -/
theorem worker_survives_delivery_failure_counterexample :
    (worker sampleConfig 1 [⟨"http://x", 200⟩]
        [⟨0, sampleWorld (some 500) (some "dial tcp: connection refused")⟩,
          ⟨0, sampleWorld (some 200) none⟩]).panicked
      = some "dial tcp: connection refused"
    ∧ ((worker sampleConfig 1 [⟨"http://x", 200⟩]
        [⟨0, sampleWorld (some 500) (some "dial tcp: connection refused")⟩,
          ⟨0, sampleWorld (some 200) none⟩]).pending).length = 1
    ∧ logLines (worker sampleConfig 1 [⟨"http://x", 200⟩]
        [⟨0, sampleWorld (some 500) (some "dial tcp: connection refused")⟩,
          ⟨0, sampleWorld (some 200) none⟩]).events = ["ALERT:  http://x is DOWN\n"]
    ∧ (worker sampleConfig 1 [⟨"http://x", 200⟩]
        [⟨0, sampleWorld (some 500) (some "dial tcp: connection refused")⟩,
          ⟨0, sampleWorld (some 200) none⟩]).sites = [⟨"http://x", 500⟩]
    ∧ logLines (worker sampleConfig 1 [⟨"http://x", 200⟩]
        [⟨0, sampleWorld (some 500) none⟩, ⟨0, sampleWorld (some 200) none⟩]).events
      = ["ALERT:  http://x is DOWN\n", "NOTICE:  http://x is BACK UP\n"] := by
  decide

/-- C8, amended: when the mail relay fails to deliver the message of a check
that invokes the Notifier, `notify` panics with the relay's error and the
worker does not recover: it stops at that job, after the log record has been
written and the new status stored, and none of the subsequent jobs of the
queue is processed by it. -/
theorem worker_stops_on_delivery_failure (config : Config) (id : Int) (sites : List Site)
    (job : Job) (rest : List Job) (url : String) (previous current : Int) (err : String)
    (hget : sites[job.site]? = some ⟨url, previous⟩)
    (hc : check_http_status job.world url true = current)
    (hne : current ≠ previous)
    (halert : current > 399 ∨ previous > 399)
    (hfail : job.world.dialAndSend (composeMessage config job.world.now
        (workerState current previous) ⟨url, current⟩) = some err) :
    (worker config id sites (job :: rest)).panicked = some err
    ∧ (worker config id sites (job :: rest)).pending = rest
    ∧ (worker config id sites (job :: rest)).sites = sites.set job.site ⟨url, current⟩
    ∧ (worker config id sites (job :: rest)).events
        = (workerCheck config job.world id ⟨url, previous⟩).events
    ∧ logLines (worker config id sites (job :: rest)).events
        = logLines (writeLog url (workerState current previous))
    ∧ mails (worker config id sites (job :: rest)).events
        = [composeMessage config job.world.now (workerState current previous)
            ⟨url, current⟩] := by
  have h0 : check_http_status job.world (Site.mk url previous).URL true
      ≠ (Site.mk url previous).Status := by simpa [hc] using hne
  have ha : workerState current previous = "BACK UP" ∨ workerState current previous = "DOWN" := by
    by_cases hd : current > 399
    · exact Or.inr (workerState_down current previous hd)
    · have hle : current ≤ 399 := by omega
      have hp : previous > 399 := by omega
      exact Or.inl (workerState_back_up current previous hle hp)
  have hpan : (workerCheck config job.world id ⟨url, previous⟩).panicked = some err := by
    rw [workerCheck_panicked_alert config job.world id ⟨url, previous⟩ h0 (by simpa [hc] using ha)]
    simpa [hc] using hfail
  obtain ⟨h1, h2, h3, h4⟩ :=
    worker_cons_panicked config id sites job rest ⟨url, previous⟩ err hget hpan
  refine ⟨h3, h4, ?_, h2, ?_, ?_⟩
  · rw [h1, workerCheck_site]
    simp only [hc]
  · rw [h2, workerCheck_logLines config job.world id ⟨url, previous⟩ h0]
    simp only [hc]
  · rw [h2, workerCheck_mails config job.world id ⟨url, previous⟩ h0]
    simp only [hc]
    simp [ha]

/-- C8, amended, at a concrete input: stored code 200, the probe returns 500,
the relay refuses the message and one more job is queued. -/
theorem worker_stops_on_delivery_failure_witness :
    (worker sampleConfig 1 [⟨"http://x", 200⟩]
        [⟨0, sampleWorld (some 500) (some "dial tcp: connection refused")⟩,
          ⟨0, sampleWorld (some 200) none⟩]).panicked
      = some "dial tcp: connection refused"
    ∧ (worker sampleConfig 1 [⟨"http://x", 200⟩]
        [⟨0, sampleWorld (some 500) (some "dial tcp: connection refused")⟩,
          ⟨0, sampleWorld (some 200) none⟩]).sites
      = [Site.mk "http://x" 200].set 0 ⟨"http://x", 500⟩ :=
  have h := worker_stops_on_delivery_failure sampleConfig 1 [⟨"http://x", 200⟩]
    ⟨0, sampleWorld (some 500) (some "dial tcp: connection refused")⟩
    [⟨0, sampleWorld (some 200) none⟩] "http://x" 200 500 "dial tcp: connection refused"
    (by decide) (by decide) (by decide) (Or.inl (by decide)) rfl
  ⟨h.1, h.2.2.1⟩

/-- C9: for every url u, `writeLog` writes exactly one record for each of the
three labels: `INFO:  u is UP` for "UP", `NOTICE:  u is BACK UP` for "BACK UP"
and `ALERT:  u is DOWN` for "DOWN"; and for every label the worker can compute
(codes that differ), the record carries the severity of the classification:
INFO for REACHABLE, NOTICE for RECOVERED, ALERT for DOWN. -/
theorem writeLog_one_line_with_severity (u : String) :
    writeLog u "UP" = [Event.logLine ("INFO:  " ++ u ++ " is UP\n")]
    ∧ writeLog u "BACK UP" = [Event.logLine ("NOTICE:  " ++ u ++ " is BACK UP\n")]
    ∧ writeLog u "DOWN" = [Event.logLine ("ALERT:  " ++ u ++ " is DOWN\n")]
    ∧ ∀ previous current : Int, current ≠ previous →
        ∃ label severity, workerLabel previous current = some label
          ∧ (specClassify previous current).severity = some severity
          ∧ writeLog u label
              = [Event.logLine (severity ++ (":  " ++ (u ++ (" is " ++ (label ++ "\n")))))] := by
  refine ⟨writeLog_up u, writeLog_back_up u, writeLog_down u, ?_⟩
  intro previous current hne
  by_cases hd : current > 399
  · refine ⟨"DOWN", "ALERT", ?_, ?_, ?_⟩
    · simp [workerLabel, hne, workerState_down current previous hd]
    · rw [specClassify_down previous current hne hd]
      rfl
    · rw [writeLog_down, String.append_assoc, ← String.append_assoc "ALERT" ":  "]
      rfl
  · have hle : current ≤ 399 := by omega
    by_cases hp : previous > 399
    · refine ⟨"BACK UP", "NOTICE", ?_, ?_, ?_⟩
      · simp [workerLabel, hne, workerState_back_up current previous hle hp]
      · rw [specClassify_back_up previous current hle hp]
        rfl
      · rw [writeLog_back_up, String.append_assoc, ← String.append_assoc "NOTICE" ":  "]
        rfl
    · have hple : previous ≤ 399 := by omega
      refine ⟨"UP", "INFO", ?_, ?_, ?_⟩
      · simp [workerLabel, hne, workerState_up current previous hle hple]
      · rw [specClassify_up previous current hne hle hple]
        rfl
      · rw [writeLog_up, String.append_assoc, ← String.append_assoc "INFO" ":  "]
        rfl

/-- C10: `check_http_status` always returns a code: the response's status code
when `client.Head` obtained a response, and the sentinel 408 when it obtained
none, whatever the error value and the `retry` flag; the sentinel is > 399, so
a probe without a response is an unreachable observation. -/
theorem check_http_status_absorbs_failure (w : World) (url : String) (retry : Bool) :
    (∀ code, (w.head url).StatusCode = some code → check_http_status w url retry = code)
    ∧ ((w.head url).StatusCode = none → check_http_status w url retry = 408)
    ∧ (408 : Int) > 399
    ∧ ((w.head url).StatusCode = none → check_http_status w url retry > 399) := by
  refine ⟨?_, ?_, by decide, ?_⟩
  · intro code h
    simp [check_http_status, h]
  · intro h
    simp [check_http_status, h]
  · intro h
    simp [check_http_status, h]

end SiteMonitor
